import Mathlib

/-!
Verification of the ProfitMaxi on-chain program (programs/profitmaxi/src).

The Rust source is shallowly embedded: machine integers (u16/u32/u64/u128)
become Nat with explicit bounds and explicit truncation (mod 2^w) at every
narrowing cast; Rust checked arithmetic (checked_add / checked_sub /
checked_mul / checked_div with ok_or) becomes Except-valued helpers that
return the same error the source attaches at each call site; Anchor account
constraints become the leading guards of each handler; Solana account keys
(Pubkey) become String.

A failed Anchor instruction reverts every account write (transaction
atomicity), so each instruction handler is a pure function from the
pre-call state to Except error post-state: an error result leaves the
caller with the unchanged pre-call state (commit_result below).
-/

namespace ProfitMaxi

/-! ## Machine-integer moduli -/

def U16_MOD : Nat := 2 ^ 16
def U32_MOD : Nat := 2 ^ 32
def U64_MOD : Nat := 2 ^ 64
def U128_MOD : Nat := 2 ^ 128

/-! ## Constants (constants.rs) -/

def BPS_DENOMINATOR : Nat := 10000
def MIN_DELTA_RATIO_BPS : Nat := 1
def MAX_DELTA_RATIO_BPS : Nat := 10000
def MAX_PROTOCOL_FEE_BPS : Nat := 1000
def MAX_KEEPER_FEE_BPS : Nat := 500
def PRICE_PRECISION : Nat := 1000000000
def MIN_THRESHOLD : Nat := 100000

def RAYDIUM_AMM_V4 : String := "675kPX9MHTjS2zt1qfr1NYHuzeLXfQM9H24wFSUt1Mp8"
def RAYDIUM_CLMM : String := "CAMMCzo5YL8w4VFF8KVHrK22GGUsp5VTaW7grrKgrWqK"
def ORCA_WHIRLPOOL : String := "whirLbMiicVdio4qvUfM5KAg6Ct8VwpYzGff3uctyCc"
def METEORA_DLMM : String := "LBUZKhRxPF3XUpBCjp4YzTKgLccjZhTSDM9YuVaPwxo"
def PUMPSWAP_PROGRAM : String := "PSwapMdSai8tjrEXcxFeQth87xC4rRsa4VA5mhGhXkP"

/-! ## Errors (errors.rs, variants reachable from the embedded handlers) -/

inductive ProfitMaxiError where
  | InvalidDeltaRatio
  | InvalidOrderSize
  | InvalidThreshold
  | FeeTooHigh
  | InsufficientBalance
  | NotOrderOwner
  | NotAdmin
  | KeeperNotActive
  | OrderNotActive
  | OrderAlreadyFilled
  | OrderAlreadyPaused
  | OrderNotPaused
  | ProtocolPaused
  | BelowThreshold
  | ZeroSellAmount
  | SlippageExceeded
  | NoTokensRemaining
  | MathOverflow
  | MathUnderflow
  | AmmSwapFailed
  | InsufficientLiquidity
  | UnsupportedAmm
deriving DecidableEq, Repr

/-! ## Order status (state.rs) -/

inductive OrderStatus where
  | Active
  | Paused
  | Filled
  | Cancelled
deriving DecidableEq, Repr

/-! ## Account state (state.rs) -/

structure Order where
  owner : String
  token_mint : String
  quote_mint : String
  amm_pool : String
  amm_program : String
  total_size : Nat
  remaining : Nat
  escrowed_tokens : Nat
  delta_ratio_bps : Nat
  min_threshold : Nat
  created_at : Int
  last_executed_at : Int
  total_fills : Nat
  total_quote_received : Nat
  avg_execution_price : Nat
  status : OrderStatus
  order_id : Nat
  bump : Nat
deriving DecidableEq, Repr

structure Config where
  admin : String
  protocol_fee_bps : Nat
  keeper_fee_bps : Nat
  total_fees_collected : Nat
  total_orders : Nat
  total_shards_executed : Nat
  total_volume : Nat
  is_paused : Bool
  bump : Nat
deriving DecidableEq, Repr

structure Keeper where
  authority : String
  shards_executed : Nat
  volume_processed : Nat
  fees_earned : Nat
  registered_at : Int
  last_active_at : Int
  is_active : Bool
  bump : Nat
deriving DecidableEq, Repr

/-! ## Checked machine arithmetic

Each helper mirrors one Rust checked operation together with the error the
source attaches to it via ok_or at its call sites: u64/u32 checked_add and
u128 checked_mul / checked_add fail with MathOverflow on overflow of their
width, u64 checked_sub fails with MathUnderflow when the subtrahend is
larger, and u128 checked_div (ok_or MathOverflow in the source) fails only
on a zero divisor. -/

def checked_add_u64 (a b : Nat) : Except ProfitMaxiError Nat :=
  if a + b < U64_MOD then .ok (a + b) else .error .MathOverflow

def checked_add_u32 (a b : Nat) : Except ProfitMaxiError Nat :=
  if a + b < U32_MOD then .ok (a + b) else .error .MathOverflow

def checked_sub_u64 (a b : Nat) : Except ProfitMaxiError Nat :=
  if b ≤ a then .ok (a - b) else .error .MathUnderflow

def checked_mul_u128 (a b : Nat) : Except ProfitMaxiError Nat :=
  if a * b < U128_MOD then .ok (a * b) else .error .MathOverflow

def checked_add_u128 (a b : Nat) : Except ProfitMaxiError Nat :=
  if a + b < U128_MOD then .ok (a + b) else .error .MathOverflow

def checked_div_u128 (a b : Nat) : Except ProfitMaxiError Nat :=
  if b = 0 then .error .MathOverflow else .ok (a / b)

/-! ## Math kernel (utils.rs) -/

/-- utils.rs calculate_sell_amount: proportional = trigger * ratio / 10000
in u128, truncated to u64, then capped at remaining. -/
def calculate_sell_amount (trigger_buy delta_ratio_bps remaining : Nat) :
    Except ProfitMaxiError Nat :=
  match checked_mul_u128 trigger_buy delta_ratio_bps with
  | .error e => .error e
  | .ok prod =>
    match checked_div_u128 prod BPS_DENOMINATOR with
    | .error e => .error e
    | .ok q => .ok (min (q % U64_MOD) remaining)

/-- utils.rs calculate_weighted_avg_price: new total weight by u64
checked_add; zero total gives 0; otherwise the u128 weighted sum divided by
the total, truncated to u64. -/
def calculate_weighted_avg_price (prev_avg prev_volume new_price new_volume : Nat) :
    Except ProfitMaxiError Nat :=
  match checked_add_u64 prev_volume new_volume with
  | .error e => .error e
  | .ok total_volume =>
    if total_volume = 0 then .ok 0
    else
      match checked_mul_u128 prev_avg prev_volume with
      | .error e => .error e
      | .ok a =>
        match checked_mul_u128 new_price new_volume with
        | .error e => .error e
        | .ok b =>
          match checked_add_u128 a b with
          | .error e => .error e
          | .ok weighted_sum =>
            match checked_div_u128 weighted_sum total_volume with
            | .error e => .error e
            | .ok avg => .ok (avg % U64_MOD)

/-- utils.rs calculate_keeper_fee: fee = amount * bps / 10000 in u128,
truncated to u64. -/
def calculate_keeper_fee (sell_amount keeper_fee_bps : Nat) :
    Except ProfitMaxiError Nat :=
  match checked_mul_u128 sell_amount keeper_fee_bps with
  | .error e => .error e
  | .ok p =>
    match checked_div_u128 p BPS_DENOMINATOR with
    | .error e => .error e
    | .ok q => .ok (q % U64_MOD)

/-- utils.rs calculate_protocol_fee: fee = amount * bps / 10000 in u128,
truncated to u64. -/
def calculate_protocol_fee (sell_amount protocol_fee_bps : Nat) :
    Except ProfitMaxiError Nat :=
  match checked_mul_u128 sell_amount protocol_fee_bps with
  | .error e => .error e
  | .ok p =>
    match checked_div_u128 p BPS_DENOMINATOR with
    | .error e => .error e
    | .ok q => .ok (q % U64_MOD)

/-- utils.rs validate_delta_ratio: ratio must lie in [1, 10000] bps. -/
def validate_delta_ratio (delta_ratio_bps : Nat) : Except ProfitMaxiError Unit :=
  if MIN_DELTA_RATIO_BPS ≤ delta_ratio_bps ∧ delta_ratio_bps ≤ MAX_DELTA_RATIO_BPS then
    .ok ()
  else .error .InvalidDeltaRatio

/-- utils.rs validate_threshold: threshold must be at least MIN_THRESHOLD. -/
def validate_threshold (threshold : Nat) : Except ProfitMaxiError Unit :=
  if MIN_THRESHOLD ≤ threshold then .ok () else .error .InvalidThreshold

/-! ## AMM swap dispatch (execute_shard.rs, execute_amm_swap_cpi)

The source parses the five known program-id strings (each parse of these
valid base58 constants succeeds) and compares the order of the registered
amm_program against each in turn; every recognized branch is an
unimplemented TODO returning UnsupportedAmm, and the final fallthrough also
returns UnsupportedAmm. -/

def execute_amm_swap_cpi (amm : String) (_tokens_to_sell _min_amount_out : Nat) :
    Except ProfitMaxiError Nat :=
  if amm = RAYDIUM_AMM_V4 then .error .UnsupportedAmm
  else if amm = RAYDIUM_CLMM then .error .UnsupportedAmm
  else if amm = ORCA_WHIRLPOOL then .error .UnsupportedAmm
  else if amm = METEORA_DLMM then .error .UnsupportedAmm
  else if amm = PUMPSWAP_PROGRAM then .error .UnsupportedAmm
  else .error .UnsupportedAmm

/-! ## Shard execution (execute_shard.rs) -/

/-- All accounts an execute_shard call reads or writes: the Order, the
global Config, the callers Keeper registration, the escrow token-account
balance, and the lamport balances of the fee vault, the keeper signer and
the order owner. -/
structure ShardState where
  order : Order
  config : Config
  keeper_acct : Keeper
  escrow_amount : Nat
  fee_vault_lamports : Nat
  keeper_lamports : Nat
  owner_lamports : Nat
deriving DecidableEq, Repr

/-- execute_shard.rs lines 171-178: the fee split. Keeper and protocol fee
are each computed from the same gross quote_received, then both are
subtracted from it by u64 checked_sub (MathUnderflow on failure). Returns
(keeper_fee, protocol_fee, net_quote). -/
def fee_split (quote_received keeper_fee_bps protocol_fee_bps : Nat) :
    Except ProfitMaxiError (Nat × Nat × Nat) :=
  match calculate_keeper_fee quote_received keeper_fee_bps with
  | .error e => .error e
  | .ok keeper_fee =>
    match calculate_protocol_fee quote_received protocol_fee_bps with
    | .error e => .error e
    | .ok protocol_fee =>
      match checked_sub_u64 quote_received keeper_fee with
      | .error e => .error e
      | .ok n1 =>
        match checked_sub_u64 n1 protocol_fee with
        | .error e => .error e
        | .ok net_quote => .ok (keeper_fee, protocol_fee, net_quote)

/-- execute_shard.rs lines 201-277: the execution-price calculation and the
state commit. Computes execution_price = quote_received * PRICE_PRECISION /
tokens_to_sell in u128 truncated to u64 (0 when tokens_to_sell = 0), then
applies every account update of a successful shard: order progress fields
(remaining, escrowed_tokens, total_fills as u32, total_quote_received,
avg_execution_price via the prior total_quote_received as previous weight,
last_executed_at, status Filled when remaining hits 0), config aggregate
counters and keeper stats, all by checked arithmetic. The lamport balances
fv2 / kl1 / ol1 were already computed by the fee transfers. -/
def execute_shard_commit (s : ShardState) (tokens_to_sell quote_received
    sell_amount keeper_fee protocol_fee net_quote fv2 kl1 ol1 : Nat)
    (now : Int) : Except ProfitMaxiError ShardState :=
  match (if tokens_to_sell = 0 then Except.ok 0 else
      match checked_mul_u128 quote_received PRICE_PRECISION with
      | .error e => .error e
      | .ok pp =>
        match checked_div_u128 pp tokens_to_sell with
        | .error e => .error e
        | .ok ep => .ok (ep % U64_MOD)) with
  | .error e => .error e
  | .ok execution_price =>
    match checked_sub_u64 s.order.remaining sell_amount with
    | .error e => .error e
    | .ok remaining2 =>
      match checked_sub_u64 s.order.escrowed_tokens tokens_to_sell with
      | .error e => .error e
      | .ok escrowed2 =>
        match checked_add_u32 s.order.total_fills 1 with
        | .error e => .error e
        | .ok fills2 =>
          match checked_add_u64 s.order.total_quote_received net_quote with
          | .error e => .error e
          | .ok tqr2 =>
            match calculate_weighted_avg_price s.order.avg_execution_price
                s.order.total_quote_received execution_price net_quote with
            | .error e => .error e
            | .ok avg2 =>
              match checked_add_u64 s.config.total_shards_executed 1 with
              | .error e => .error e
              | .ok cse2 =>
                match checked_add_u64 s.config.total_volume sell_amount with
                | .error e => .error e
                | .ok cv2 =>
                  match checked_add_u64 s.config.total_fees_collected protocol_fee with
                  | .error e => .error e
                  | .ok cfc2 =>
                    match checked_add_u64 s.keeper_acct.shards_executed 1 with
                    | .error e => .error e
                    | .ok kse2 =>
                      match checked_add_u64 s.keeper_acct.volume_processed sell_amount with
                      | .error e => .error e
                      | .ok kvp2 =>
                        match checked_add_u64 s.keeper_acct.fees_earned keeper_fee with
                        | .error e => .error e
                        | .ok kfe2 =>
                          Except.ok { s with
                            order := { s.order with
                              remaining := remaining2
                              escrowed_tokens := escrowed2
                              total_fills := fills2
                              total_quote_received := tqr2
                              avg_execution_price := avg2
                              last_executed_at := now
                              status := if remaining2 = 0 then OrderStatus.Filled
                                        else s.order.status }
                            config := { s.config with
                              total_shards_executed := cse2
                              total_volume := cv2
                              total_fees_collected := cfc2 }
                            keeper_acct := { s.keeper_acct with
                              shards_executed := kse2
                              volume_processed := kvp2
                              fees_earned := kfe2
                              last_active_at := now }
                            fee_vault_lamports := fv2
                            keeper_lamports := kl1
                            owner_lamports := ol1 }

/-- execute_shard.rs handler (with the ExecuteShard account constraints as
leading guards). The AMM swap CPI is abstracted as the swap parameter: the
Pool Adapter boundary of the design, a function from (tokens_to_sell,
min_amount_out) to gross quote proceeds or failure; instantiating it with
execute_amm_swap_cpi of the registered program gives the dispatch the
source currently ships. now is the Clock timestamp. A returned error means
the Solana runtime reverts every account write (see commit_result). -/
def execute_shard (swap : Nat → Nat → Except ProfitMaxiError Nat)
    (s : ShardState) (trigger_buy_lamports min_amount_out : Nat) (now : Int) :
    Except ProfitMaxiError ShardState :=
  -- Account constraints: keeper_account.is_active, order.status == Active,
  -- order.remaining > 0.
  if s.keeper_acct.is_active = false then .error .KeeperNotActive
  else if s.order.status ≠ OrderStatus.Active then .error .OrderNotActive
  else if s.order.remaining = 0 then .error .OrderAlreadyFilled
  -- require!(trigger_buy_lamports >= order.min_threshold)
  else if trigger_buy_lamports < s.order.min_threshold then .error .BelowThreshold
  -- require!(!config.is_paused)
  else if s.config.is_paused then .error .ProtocolPaused
  else
    match calculate_sell_amount trigger_buy_lamports s.order.delta_ratio_bps
        s.order.remaining with
    | .error e => .error e
    | .ok sell_amount =>
      -- require!(sell_amount > 0)
      if sell_amount = 0 then .error .ZeroSellAmount
      else
        -- tokens_to_sell = escrowed_tokens * sell_amount / remaining (u128),
        -- cast down to u64
        match checked_mul_u128 s.order.escrowed_tokens sell_amount with
        | .error e => .error e
        | .ok prod =>
          match checked_div_u128 prod s.order.remaining with
          | .error e => .error e
          | .ok q =>
            if (q % U64_MOD) ≤ s.escrow_amount then
              -- swap CPI returns gross quote proceeds
              match swap (q % U64_MOD) min_amount_out with
              | .error e => .error e
              | .ok quote_received =>
                -- require!(quote_received >= min_amount_out)
                if quote_received < min_amount_out then .error .SlippageExceeded
                else
                  match fee_split quote_received s.config.keeper_fee_bps
                      s.config.protocol_fee_bps with
                  | .error e => .error e
                  | .ok (keeper_fee, protocol_fee, net_quote) =>
                    -- fee_vault -> keeper: keeper_fee
                    match checked_sub_u64 s.fee_vault_lamports keeper_fee with
                    | .error e => .error e
                    | .ok fv1 =>
                      match checked_add_u64 s.keeper_lamports keeper_fee with
                      | .error e => .error e
                      | .ok kl1 =>
                        -- fee_vault -> owner: net_quote (protocol_fee stays)
                        match checked_sub_u64 fv1 net_quote with
                        | .error e => .error e
                        | .ok fv2 =>
                          match checked_add_u64 s.owner_lamports net_quote with
                          | .error e => .error e
                          | .ok ol1 =>
                            execute_shard_commit s (q % U64_MOD) quote_received
                              sell_amount keeper_fee protocol_fee net_quote
                              fv2 kl1 ol1 now
            else .error .NoTokensRemaining

/-! ## Lifecycle instructions (cancel_order.rs, update_order.rs,
pause_order.rs, resume_order.rs)

Each handler takes the signer key and the pre-call Order; the Anchor
account constraints (owner match, status guard) run first, in the order
they are declared in the Accounts struct. -/

/-- cancel_order.rs: owner-only, allowed from Active or Paused; returns the
whole escrow token balance to the owner, sets status Cancelled and zeroes
escrowed_tokens. Result is the updated Order and the tokens returned. -/
def cancel_order (signer : String) (o : Order) (escrow_amount : Nat) :
    Except ProfitMaxiError (Order × Nat) :=
  if o.owner ≠ signer then .error .NotOrderOwner
  else if ¬(o.status = OrderStatus.Active ∨ o.status = OrderStatus.Paused) then
    .error .OrderNotActive
  else
    .ok ({ o with status := OrderStatus.Cancelled, escrowed_tokens := 0 },
         escrow_amount)

/-- update_order.rs lines 35-39: the first optional update. If a new delta
ratio is provided it is revalidated and written, otherwise the order passes
through unchanged. -/
def apply_delta_update (o : Order) : Option Nat → Except ProfitMaxiError Order
  | none => .ok o
  | some r =>
    match validate_delta_ratio r with
    | .error e => .error e
    | .ok _ => .ok { o with delta_ratio_bps := r }

/-- update_order.rs lines 42-46: the second optional update. If a new
minimum threshold is provided it is revalidated and written, otherwise the
order passes through unchanged. -/
def apply_threshold_update (o : Order) : Option Nat → Except ProfitMaxiError Order
  | none => .ok o
  | some th =>
    match validate_threshold th with
    | .error e => .error e
    | .ok _ => .ok { o with min_threshold := th }

/-- update_order.rs: owner-only, allowed from Active or Paused; each
provided parameter is revalidated against the creation bounds and written,
None parameters leave their field untouched. -/
def update_order (signer : String) (o : Order)
    (new_delta_ratio_bps : Option Nat) (new_min_threshold : Option Nat) :
    Except ProfitMaxiError Order :=
  if o.owner ≠ signer then .error .NotOrderOwner
  else if ¬(o.status = OrderStatus.Active ∨ o.status = OrderStatus.Paused) then
    .error .OrderNotActive
  else
    match apply_delta_update o new_delta_ratio_bps with
    | .error e => .error e
    | .ok o1 => apply_threshold_update o1 new_min_threshold

/-- pause_order.rs: owner-only, requires status Active. -/
def pause_order (signer : String) (o : Order) : Except ProfitMaxiError Order :=
  if o.owner ≠ signer then .error .NotOrderOwner
  else if o.status ≠ OrderStatus.Active then .error .OrderAlreadyPaused
  else .ok { o with status := OrderStatus.Paused }

/-- resume_order.rs: owner-only, requires status Paused. -/
def resume_order (signer : String) (o : Order) : Except ProfitMaxiError Order :=
  if o.owner ≠ signer then .error .NotOrderOwner
  else if o.status ≠ OrderStatus.Paused then .error .OrderNotPaused
  else .ok { o with status := OrderStatus.Active }

/-! ## Transaction atomicity -/

/-- The Solana runtime commits the account writes of an instruction only
when it returns Ok; on any error every account keeps its pre-call value.
commit_result is the state the caller observes after the call. -/
def commit_result (r : Except ProfitMaxiError ShardState) (pre : ShardState) :
    ShardState :=
  match r with
  | .ok post => post
  | .error _ => pre

/-- Whether an instruction result is a success. -/
def is_ok {ε α : Type} (r : Except ε α) : Bool :=
  match r with
  | .ok _ => true
  | .error _ => false

/-- Equality of every Order field other than the two mutable policy fields
delta_ratio_bps and min_threshold. -/
def Order.core_eq (a b : Order) : Prop :=
  a.owner = b.owner ∧ a.token_mint = b.token_mint ∧ a.quote_mint = b.quote_mint ∧
  a.amm_pool = b.amm_pool ∧ a.amm_program = b.amm_program ∧
  a.total_size = b.total_size ∧ a.remaining = b.remaining ∧
  a.escrowed_tokens = b.escrowed_tokens ∧ a.created_at = b.created_at ∧
  a.last_executed_at = b.last_executed_at ∧ a.total_fills = b.total_fills ∧
  a.total_quote_received = b.total_quote_received ∧
  a.avg_execution_price = b.avg_execution_price ∧ a.status = b.status ∧
  a.order_id = b.order_id ∧ a.bump = b.bump

/-! ## Concrete fixtures

A small Pool Adapter stub and a live order used to exercise the theorems on
concrete runs: an Active order with 100 quote units remaining and 50
escrowed tokens, a 100% delta ratio, 10 bps fees, an active keeper, and a
funded fee vault. sample_post is the state after one full shard against it. -/

def sample_swap : Nat → Nat → Except ProfitMaxiError Nat := fun _ _ => .ok 1000

def sample_order : Order :=
  { owner := "alice", token_mint := "mintT", quote_mint := "mintQ",
    amm_pool := "pool", amm_program := "prog",
    total_size := 1000, remaining := 100, escrowed_tokens := 50,
    delta_ratio_bps := 10000, min_threshold := 10,
    created_at := 0, last_executed_at := 0, total_fills := 3,
    total_quote_received := 0, avg_execution_price := 0,
    status := OrderStatus.Active, order_id := 1, bump := 255 }

def sample_config : Config :=
  { admin := "adm", protocol_fee_bps := 10, keeper_fee_bps := 10,
    total_fees_collected := 0, total_orders := 1, total_shards_executed := 0,
    total_volume := 0, is_paused := false, bump := 254 }

def sample_keeper : Keeper :=
  { authority := "kp", shards_executed := 0, volume_processed := 0,
    fees_earned := 0, registered_at := 0, last_active_at := 0,
    is_active := true, bump := 253 }

def sample_state : ShardState :=
  { order := sample_order, config := sample_config, keeper_acct := sample_keeper,
    escrow_amount := 50, fee_vault_lamports := 1000000000,
    keeper_lamports := 0, owner_lamports := 0 }

def paused_state : ShardState :=
  { sample_state with config := { sample_config with is_paused := true } }

def filled_state : ShardState :=
  { sample_state with order := { sample_order with status := OrderStatus.Filled } }

def sample_post : ShardState :=
  commit_result (execute_shard sample_swap sample_state 100 0 0) sample_state

instance {ε α : Type} [DecidableEq ε] [DecidableEq α] : DecidableEq (Except ε α) :=
  fun x y =>
    match x, y with
    | .ok a, .ok b =>
      if h : a = b then isTrue (by rw [h])
      else isFalse (fun hc => h (Except.ok.inj hc))
    | .error a, .error b =>
      if h : a = b then isTrue (by rw [h])
      else isFalse (fun hc => h (Except.error.inj hc))
    | .ok _, .error _ => isFalse (fun hc => Except.noConfusion hc)
    | .error _, .ok _ => isFalse (fun hc => Except.noConfusion hc)

/-! ## Inversion lemmas for the checked arithmetic -/

lemma checked_mul_u128_ok {a b c : Nat} :
    checked_mul_u128 a b = .ok c ↔ a * b < U128_MOD ∧ c = a * b := by
  unfold checked_mul_u128
  split_ifs with h <;> constructor <;> intro hx
  · exact ⟨h, (Except.ok.inj hx).symm⟩
  · rw [hx.2]
  · exact absurd hx (by simp)
  · exact absurd hx.1 h

lemma checked_div_u128_ok {a b c : Nat} :
    checked_div_u128 a b = .ok c ↔ b ≠ 0 ∧ c = a / b := by
  unfold checked_div_u128
  split_ifs with h <;> constructor <;> intro hx
  · exact absurd hx (by simp)
  · exact absurd h hx.1
  · exact ⟨h, (Except.ok.inj hx).symm⟩
  · rw [hx.2]

lemma checked_sub_u64_ok {a b c : Nat} :
    checked_sub_u64 a b = .ok c ↔ b ≤ a ∧ c = a - b := by
  unfold checked_sub_u64
  split_ifs with h <;> constructor <;> intro hx
  · exact ⟨h, (Except.ok.inj hx).symm⟩
  · rw [hx.2]
  · exact absurd hx (by simp)
  · exact absurd hx.1 h

lemma checked_add_u64_ok {a b c : Nat} :
    checked_add_u64 a b = .ok c ↔ a + b < U64_MOD ∧ c = a + b := by
  unfold checked_add_u64
  split_ifs with h <;> constructor <;> intro hx
  · exact ⟨h, (Except.ok.inj hx).symm⟩
  · rw [hx.2]
  · exact absurd hx (by simp)
  · exact absurd hx.1 h

lemma checked_add_u32_ok {a b c : Nat} :
    checked_add_u32 a b = .ok c ↔ a + b < U32_MOD ∧ c = a + b := by
  unfold checked_add_u32
  split_ifs with h <;> constructor <;> intro hx
  · exact ⟨h, (Except.ok.inj hx).symm⟩
  · rw [hx.2]
  · exact absurd hx (by simp)
  · exact absurd hx.1 h

lemma checked_add_u128_ok {a b c : Nat} :
    checked_add_u128 a b = .ok c ↔ a + b < U128_MOD ∧ c = a + b := by
  unfold checked_add_u128
  split_ifs with h <;> constructor <;> intro hx
  · exact ⟨h, (Except.ok.inj hx).symm⟩
  · rw [hx.2]
  · exact absurd hx (by simp)
  · exact absurd hx.1 h

/-! ## Arithmetic helper lemmas -/

lemma div_add_div_le (a b d : Nat) (hd : 0 < d) : a / d + b / d ≤ (a + b) / d := by
  rw [Nat.le_div_iff_mul_le hd]
  calc (a / d + b / d) * d = a / d * d + b / d * d := by ring
    _ ≤ a + b := Nat.add_le_add (Nat.div_mul_le_self a d) (Nat.div_mul_le_self b d)

lemma bps_fee_le (q k : Nat) (hk : k ≤ BPS_DENOMINATOR) :
    q * k / BPS_DENOMINATOR ≤ q := by
  unfold BPS_DENOMINATOR at *
  calc q * k / 10000 ≤ q * 10000 / 10000 :=
        Nat.div_le_div_right (Nat.mul_le_mul_left q hk)
    _ = q := Nat.mul_div_cancel q (by norm_num)

/-- Evaluation of calculate_keeper_fee on in-range inputs: the u128
intermediate cannot overflow and the final u64 cast does not truncate. -/
lemma calculate_keeper_fee_eval (q k : Nat) (hq : q < U64_MOD)
    (hk : k ≤ BPS_DENOMINATOR) :
    calculate_keeper_fee q k = .ok (q * k / BPS_DENOMINATOR) := by
  have hmul : q * k < U128_MOD := by
    have h1 : q * k ≤ q * BPS_DENOMINATOR := Nat.mul_le_mul_left q hk
    have h2 : q * BPS_DENOMINATOR ≤ (U64_MOD - 1) * BPS_DENOMINATOR :=
      Nat.mul_le_mul (by omega) (le_refl BPS_DENOMINATOR)
    unfold U64_MOD BPS_DENOMINATOR at h1 h2
    unfold U128_MOD
    omega
  have hdiv : checked_div_u128 (q * k) BPS_DENOMINATOR =
      .ok (q * k / BPS_DENOMINATOR) := by
    unfold checked_div_u128
    rw [if_neg (by unfold BPS_DENOMINATOR; norm_num)]
  have hm : checked_mul_u128 q k = .ok (q * k) := by
    unfold checked_mul_u128
    rw [if_pos hmul]
  simp only [calculate_keeper_fee, hm, hdiv]
  rw [Nat.mod_eq_of_lt (lt_of_le_of_lt (bps_fee_le q k hk) hq)]

/-- Evaluation of calculate_protocol_fee on in-range inputs. -/
lemma calculate_protocol_fee_eval (q k : Nat) (hq : q < U64_MOD)
    (hk : k ≤ BPS_DENOMINATOR) :
    calculate_protocol_fee q k = .ok (q * k / BPS_DENOMINATOR) := by
  have hmul : q * k < U128_MOD := by
    have h1 : q * k ≤ q * BPS_DENOMINATOR := Nat.mul_le_mul_left q hk
    have h2 : q * BPS_DENOMINATOR ≤ (U64_MOD - 1) * BPS_DENOMINATOR :=
      Nat.mul_le_mul (by omega) (le_refl BPS_DENOMINATOR)
    unfold U64_MOD BPS_DENOMINATOR at h1 h2
    unfold U128_MOD
    omega
  have hdiv : checked_div_u128 (q * k) BPS_DENOMINATOR =
      .ok (q * k / BPS_DENOMINATOR) := by
    unfold checked_div_u128
    rw [if_neg (by unfold BPS_DENOMINATOR; norm_num)]
  have hm : checked_mul_u128 q k = .ok (q * k) := by
    unfold checked_mul_u128
    rw [if_pos hmul]
  simp only [calculate_protocol_fee, hm, hdiv]
  rw [Nat.mod_eq_of_lt (lt_of_le_of_lt (bps_fee_le q k hk) hq)]

/-- Under the configured caps the two floor fees never exceed the base. -/
lemma fees_sum_le (q kbps pbps : Nat)
    (hk : kbps ≤ MAX_KEEPER_FEE_BPS) (hp : pbps ≤ MAX_PROTOCOL_FEE_BPS) :
    q * kbps / BPS_DENOMINATOR + q * pbps / BPS_DENOMINATOR ≤ q := by
  have h1 : q * kbps / BPS_DENOMINATOR + q * pbps / BPS_DENOMINATOR ≤
      (q * kbps + q * pbps) / BPS_DENOMINATOR :=
    div_add_div_le _ _ _ (by unfold BPS_DENOMINATOR; norm_num)
  have h2 : q * kbps + q * pbps ≤ q * BPS_DENOMINATOR := by
    unfold MAX_KEEPER_FEE_BPS at hk
    unfold MAX_PROTOCOL_FEE_BPS at hp
    unfold BPS_DENOMINATOR
    calc q * kbps + q * pbps = q * (kbps + pbps) := by ring
      _ ≤ q * 10000 := Nat.mul_le_mul_left q (by omega)
  calc q * kbps / BPS_DENOMINATOR + q * pbps / BPS_DENOMINATOR
      ≤ (q * kbps + q * pbps) / BPS_DENOMINATOR := h1
    _ ≤ q * BPS_DENOMINATOR / BPS_DENOMINATOR := Nat.div_le_div_right h2
    _ = q := Nat.mul_div_cancel q (by unfold BPS_DENOMINATOR; norm_num)

/-- Evaluation of calculate_weighted_avg_price when the combined weight
fits in u64: every u128 intermediate is in range and the final u64 cast
does not truncate, so the result is the exact floor of the weighted mean. -/
lemma calculate_weighted_avg_price_eval (prev_avg prev_volume new_price new_volume : Nat)
    (hA : prev_avg < U64_MOD) (hp : new_price < U64_MOD)
    (hWw : prev_volume + new_volume < U64_MOD) :
    calculate_weighted_avg_price prev_avg prev_volume new_price new_volume =
      .ok (if prev_volume + new_volume = 0 then 0
           else (prev_avg * prev_volume + new_price * new_volume)
                / (prev_volume + new_volume)) := by
  have hadd : checked_add_u64 prev_volume new_volume = .ok (prev_volume + new_volume) := by
    unfold checked_add_u64
    rw [if_pos hWw]
  by_cases h0 : prev_volume + new_volume = 0
  · simp only [calculate_weighted_avg_price, hadd, if_pos h0]
  · have hAW : prev_avg * prev_volume < U128_MOD := by
      have h1 : prev_avg * prev_volume ≤ (U64_MOD - 1) * (U64_MOD - 1) :=
        Nat.mul_le_mul (by omega) (by omega)
      unfold U64_MOD at h1
      unfold U128_MOD
      omega
    have hpw : new_price * new_volume < U128_MOD := by
      have h1 : new_price * new_volume ≤ (U64_MOD - 1) * (U64_MOD - 1) :=
        Nat.mul_le_mul (by omega) (by omega)
      unfold U64_MOD at h1
      unfold U128_MOD
      omega
    have hsumle : prev_avg * prev_volume + new_price * new_volume ≤
        (U64_MOD - 1) * (prev_volume + new_volume) := by
      have h1 : prev_avg * prev_volume ≤ (U64_MOD - 1) * prev_volume :=
        Nat.mul_le_mul (by omega) (le_refl _)
      have h2 : new_price * new_volume ≤ (U64_MOD - 1) * new_volume :=
        Nat.mul_le_mul (by omega) (le_refl _)
      calc prev_avg * prev_volume + new_price * new_volume
          ≤ (U64_MOD - 1) * prev_volume + (U64_MOD - 1) * new_volume :=
            Nat.add_le_add h1 h2
        _ = (U64_MOD - 1) * (prev_volume + new_volume) := by ring
    have hsum : prev_avg * prev_volume + new_price * new_volume < U128_MOD := by
      have h2 : (U64_MOD - 1) * (prev_volume + new_volume) ≤
          (U64_MOD - 1) * (U64_MOD - 1) := Nat.mul_le_mul (le_refl _) (by omega)
      have h3 := le_trans hsumle h2
      unfold U64_MOD at h3
      unfold U128_MOD
      omega
    have havg : (prev_avg * prev_volume + new_price * new_volume)
        / (prev_volume + new_volume) < U64_MOD := by
      have h1 : (prev_avg * prev_volume + new_price * new_volume)
          / (prev_volume + new_volume) ≤
          (U64_MOD - 1) * (prev_volume + new_volume) / (prev_volume + new_volume) :=
        Nat.div_le_div_right hsumle
      rw [Nat.mul_div_cancel _ (by omega)] at h1
      omega
    have hm1 : checked_mul_u128 prev_avg prev_volume = .ok (prev_avg * prev_volume) := by
      unfold checked_mul_u128
      rw [if_pos hAW]
    have hm2 : checked_mul_u128 new_price new_volume = .ok (new_price * new_volume) := by
      unfold checked_mul_u128
      rw [if_pos hpw]
    have ha : checked_add_u128 (prev_avg * prev_volume) (new_price * new_volume) =
        .ok (prev_avg * prev_volume + new_price * new_volume) := by
      unfold checked_add_u128
      rw [if_pos hsum]
    have hd : checked_div_u128 (prev_avg * prev_volume + new_price * new_volume)
        (prev_volume + new_volume) =
        .ok ((prev_avg * prev_volume + new_price * new_volume)
             / (prev_volume + new_volume)) := by
      unfold checked_div_u128
      rw [if_neg h0]
    simp only [calculate_weighted_avg_price, hadd, if_neg h0, hm1, hm2, ha, hd]
    rw [Nat.mod_eq_of_lt havg]

/-! ## Frame lemmas for the optional order updates -/

lemma Order.core_eq_refl (a : Order) : a.core_eq a :=
  ⟨rfl, rfl, rfl, rfl, rfl, rfl, rfl, rfl, rfl, rfl, rfl, rfl, rfl, rfl, rfl, rfl⟩

lemma Order.core_eq_trans {a b c : Order} (h1 : a.core_eq b) (h2 : b.core_eq c) :
    a.core_eq c := by
  obtain ⟨a1, a2, a3, a4, a5, a6, a7, a8, a9, a10, a11, a12, a13, a14, a15, a16⟩ := h1
  obtain ⟨b1, b2, b3, b4, b5, b6, b7, b8, b9, b10, b11, b12, b13, b14, b15, b16⟩ := h2
  exact ⟨a1.trans b1, a2.trans b2, a3.trans b3, a4.trans b4, a5.trans b5,
    a6.trans b6, a7.trans b7, a8.trans b8, a9.trans b9, a10.trans b10,
    a11.trans b11, a12.trans b12, a13.trans b13, a14.trans b14, a15.trans b15,
    a16.trans b16⟩

lemma apply_delta_update_core {o o1 : Order} {dr : Option Nat}
    (h : apply_delta_update o dr = .ok o1) : o1.core_eq o := by
  cases dr with
  | none =>
    have h2 : o = o1 := Except.ok.inj h
    subst h2
    exact Order.core_eq_refl o
  | some r =>
    simp only [apply_delta_update] at h
    split at h
    · exact Except.noConfusion h
    · have h2 := Except.ok.inj h
      subst h2
      exact ⟨rfl, rfl, rfl, rfl, rfl, rfl, rfl, rfl, rfl, rfl, rfl, rfl, rfl, rfl, rfl, rfl⟩

lemma apply_threshold_update_core {o o1 : Order} {thr : Option Nat}
    (h : apply_threshold_update o thr = .ok o1) : o1.core_eq o := by
  cases thr with
  | none =>
    have h2 : o = o1 := Except.ok.inj h
    subst h2
    exact Order.core_eq_refl o
  | some th =>
    simp only [apply_threshold_update] at h
    split at h
    · exact Except.noConfusion h
    · have h2 := Except.ok.inj h
      subst h2
      exact ⟨rfl, rfl, rfl, rfl, rfl, rfl, rfl, rfl, rfl, rfl, rfl, rfl, rfl, rfl, rfl, rfl⟩

/-! ## Claim theorems -/

/-- C2: For every venue identifier, the swap dispatch of execute_shard
fails closed with UnsupportedAmm and never returns success; since no
adapter is implemented, every venue (recognized or not) takes an error
branch and none is silently accepted via a default identity swap. -/
theorem execute_amm_swap_cpi_fails_closed (amm : String)
    (tokens_to_sell min_amount_out : Nat) :
    execute_amm_swap_cpi amm tokens_to_sell min_amount_out =
      .error ProfitMaxiError.UnsupportedAmm := by
  unfold execute_amm_swap_cpi
  split_ifs <;> rfl

/-- C4: For every u64 trigger and u64 remaining, with the delta ratio in
[1, 10000] bps, a successful calculate_sell_amount result is at most
remaining and at most the trigger. -/
theorem calculate_sell_amount_le (trigger_buy delta_ratio_bps remaining v : Nat)
    (ht : trigger_buy < U64_MOD)
    (_hd1 : MIN_DELTA_RATIO_BPS ≤ delta_ratio_bps)
    (hd2 : delta_ratio_bps ≤ MAX_DELTA_RATIO_BPS)
    (hv : calculate_sell_amount trigger_buy delta_ratio_bps remaining = .ok v) :
    v ≤ remaining ∧ v ≤ trigger_buy := by
  unfold MAX_DELTA_RATIO_BPS at hd2
  have hq : trigger_buy * delta_ratio_bps / BPS_DENOMINATOR ≤ trigger_buy := by
    unfold BPS_DENOMINATOR
    have h1 : trigger_buy * delta_ratio_bps ≤ trigger_buy * 10000 :=
      Nat.mul_le_mul_left trigger_buy hd2
    calc trigger_buy * delta_ratio_bps / 10000 ≤ trigger_buy * 10000 / 10000 :=
          Nat.div_le_div_right h1
      _ = trigger_buy := Nat.mul_div_cancel trigger_buy (by norm_num)
  unfold calculate_sell_amount at hv
  split at hv
  · exact Except.noConfusion hv
  · rename_i prod hprod
    rw [checked_mul_u128_ok] at hprod
    split at hv
    · exact Except.noConfusion hv
    · rename_i q hdiv
      rw [checked_div_u128_ok] at hdiv
      have hveq := (Except.ok.inj hv).symm
      rw [hdiv.2, hprod.2] at hveq
      have hmod : trigger_buy * delta_ratio_bps / BPS_DENOMINATOR % U64_MOD
          = trigger_buy * delta_ratio_bps / BPS_DENOMINATOR :=
        Nat.mod_eq_of_lt (lt_of_le_of_lt hq ht)
      rw [hmod] at hveq
      subst hveq
      exact ⟨min_le_right _ _, le_trans (min_le_left _ _) hq⟩

/-- C9: calculate_sell_amount is total on machine-representable inputs:
for every u64 trigger, u16 delta ratio and u64 remaining it returns Ok,
because the u128 intermediate product cannot overflow and the divisor
10000 is nonzero. -/
theorem calculate_sell_amount_total (trigger_buy delta_ratio_bps remaining : Nat)
    (ht : trigger_buy < U64_MOD) (hd : delta_ratio_bps < U16_MOD) :
    ∃ v, calculate_sell_amount trigger_buy delta_ratio_bps remaining = .ok v := by
  have hmul : trigger_buy * delta_ratio_bps < U128_MOD := by
    have h := Nat.mul_lt_mul_of_lt_of_lt ht hd
    unfold U64_MOD U16_MOD at h
    unfold U128_MOD
    omega
  unfold calculate_sell_amount checked_mul_u128 checked_div_u128
  rw [if_pos hmul]
  exact ⟨_, rfl⟩

/-- C5: When the combined weight fits in u64, calculate_weighted_avg_price
returns 0 on zero total weight and otherwise the exact wide-arithmetic
floor of (A*W + p*w) / (W + w); in particular the two spec examples
evaluate to 10 and 15. -/
theorem weighted_avg_price_exact :
    (∀ prev_avg prev_volume new_price new_volume : Nat,
      prev_avg < U64_MOD → new_price < U64_MOD →
      prev_volume + new_volume < U64_MOD →
      calculate_weighted_avg_price prev_avg prev_volume new_price new_volume =
        .ok (if prev_volume + new_volume = 0 then 0
             else (prev_avg * prev_volume + new_price * new_volume)
                  / (prev_volume + new_volume)))
    ∧ calculate_weighted_avg_price 0 0 10 100 = .ok 10
    ∧ calculate_weighted_avg_price 10 100 20 100 = .ok 15 := by
  refine ⟨fun A W p w hA hp hWw =>
    calculate_weighted_avg_price_eval A W p w hA hp hWw, rfl, rfl⟩

/-- C7: Under the fee caps enforced at initialize and update_config
(keeper_fee_bps at most 500, protocol_fee_bps at most 1000), the fee split
of execute_shard succeeds for every u64 gross quote: the
net = quote - keeper_fee - protocol_fee subtraction cannot underflow, so
its MathUnderflow branch is unreachable. -/
theorem fee_split_no_underflow (quote_received keeper_fee_bps protocol_fee_bps : Nat)
    (hq : quote_received < U64_MOD)
    (hk : keeper_fee_bps ≤ MAX_KEEPER_FEE_BPS)
    (hp : protocol_fee_bps ≤ MAX_PROTOCOL_FEE_BPS) :
    ∃ r, fee_split quote_received keeper_fee_bps protocol_fee_bps = .ok r := by
  have hk10 : keeper_fee_bps ≤ BPS_DENOMINATOR := by
    unfold MAX_KEEPER_FEE_BPS at hk
    unfold BPS_DENOMINATOR
    omega
  have hp10 : protocol_fee_bps ≤ BPS_DENOMINATOR := by
    unfold MAX_PROTOCOL_FEE_BPS at hp
    unfold BPS_DENOMINATOR
    omega
  have hkf := calculate_keeper_fee_eval quote_received keeper_fee_bps hq hk10
  have hpf := calculate_protocol_fee_eval quote_received protocol_fee_bps hq hp10
  have hsum := fees_sum_le quote_received keeper_fee_bps protocol_fee_bps hk hp
  have hs1 : checked_sub_u64 quote_received
      (quote_received * keeper_fee_bps / BPS_DENOMINATOR) =
      .ok (quote_received - quote_received * keeper_fee_bps / BPS_DENOMINATOR) := by
    rw [checked_sub_u64_ok]
    exact ⟨le_trans (Nat.le_add_right _ _) hsum, rfl⟩
  have hs2 : checked_sub_u64
      (quote_received - quote_received * keeper_fee_bps / BPS_DENOMINATOR)
      (quote_received * protocol_fee_bps / BPS_DENOMINATOR) =
      .ok (quote_received - quote_received * keeper_fee_bps / BPS_DENOMINATOR
           - quote_received * protocol_fee_bps / BPS_DENOMINATOR) := by
    rw [checked_sub_u64_ok]
    refine ⟨Nat.le_sub_of_add_le ?_, rfl⟩
    rw [Nat.add_comm]
    exact hsum
  simp only [fee_split, hkf, hpf, hs1, hs2]
  exact ⟨_, rfl⟩

/-- C10: update_order mutates only the two policy fields: every successful
call leaves every other Order field equal to its pre-call value
(Order.core_eq), and a call with both parameters None on an owned Active
or Paused order succeeds as a no-op returning the unchanged order. -/
theorem update_order_policy_frame :
    (∀ (signer : String) (o : Order) (dr thr : Option Nat) (o' : Order),
      update_order signer o dr thr = .ok o' → o'.core_eq o)
    ∧ (∀ (signer : String) (o : Order), o.owner = signer →
        (o.status = OrderStatus.Active ∨ o.status = OrderStatus.Paused) →
        update_order signer o none none = .ok o) := by
  constructor
  · intro signer o dr thr o' h
    unfold update_order at h
    split_ifs at h with h1 h2
    split at h
    · exact Except.noConfusion h
    · rename_i o1 ho1
      exact Order.core_eq_trans (apply_threshold_update_core h)
        (apply_delta_update_core ho1)
  · intro signer o howner hstatus
    have h1 : ¬(o.owner ≠ signer) := fun hc => hc howner
    have h2 : ¬¬(o.status = OrderStatus.Active ∨ o.status = OrderStatus.Paused) :=
      not_not_intro hstatus
    unfold update_order
    rw [if_neg h1, if_neg h2]
    rfl

/-- C8: Filled and Cancelled are terminal: whenever an order is in one of
those states, every state-changing operation on it — execute_shard,
cancel_order, update_order, pause_order and resume_order — fails, so the
status is permanent. -/
theorem terminal_status_frozen (swap : Nat → Nat → Except ProfitMaxiError Nat)
    (s : ShardState) (trigger_buy min_amount_out : Nat) (now : Int)
    (signer : String) (dr thr : Option Nat) (esc : Nat)
    (hs : s.order.status = OrderStatus.Filled ∨
          s.order.status = OrderStatus.Cancelled) :
    is_ok (execute_shard swap s trigger_buy min_amount_out now) = false ∧
    is_ok (cancel_order signer s.order esc) = false ∧
    is_ok (update_order signer s.order dr thr) = false ∧
    is_ok (pause_order signer s.order) = false ∧
    is_ok (resume_order signer s.order) = false := by
  have hact : s.order.status ≠ OrderStatus.Active := by
    rcases hs with h | h <;> rw [h] <;> simp
  have hpau : s.order.status ≠ OrderStatus.Paused := by
    rcases hs with h | h <;> rw [h] <;> simp
  have hnap : ¬(s.order.status = OrderStatus.Active ∨
      s.order.status = OrderStatus.Paused) := by
    rintro (h | h)
    · exact hact h
    · exact hpau h
  refine ⟨?_, ?_, ?_, ?_, ?_⟩
  · by_cases hk : s.keeper_acct.is_active = false
    · unfold execute_shard
      rw [if_pos hk]
      rfl
    · unfold execute_shard
      rw [if_neg hk, if_pos hact]
      rfl
  · by_cases ho : s.order.owner ≠ signer
    · unfold cancel_order
      rw [if_pos ho]
      rfl
    · unfold cancel_order
      rw [if_neg ho, if_pos hnap]
      rfl
  · by_cases ho : s.order.owner ≠ signer
    · unfold update_order
      rw [if_pos ho]
      rfl
    · unfold update_order
      rw [if_neg ho, if_pos hnap]
      rfl
  · by_cases ho : s.order.owner ≠ signer
    · unfold pause_order
      rw [if_pos ho]
      rfl
    · unfold pause_order
      rw [if_neg ho, if_pos hact]
      rfl
  · by_cases ho : s.order.owner ≠ signer
    · unfold resume_order
      rw [if_pos ho]
      rfl
    · unfold resume_order
      rw [if_neg ho, if_pos hpau]
      rfl

/-- C1: Zero side effects survive any execute_shard failure: when the call
returns an error the state the caller observes afterwards (commit_result,
the runtime rollback) agrees with the pre-call state on the Order, the
Config, the Keeper account, the escrow balance, the fee vault and both
lamport balances. -/
theorem execute_shard_error_frame (swap : Nat → Nat → Except ProfitMaxiError Nat)
    (s : ShardState) (trigger_buy min_amount_out : Nat) (now : Int)
    (e : ProfitMaxiError)
    (h : execute_shard swap s trigger_buy min_amount_out now = .error e) :
    (commit_result (execute_shard swap s trigger_buy min_amount_out now) s).order
        = s.order ∧
    (commit_result (execute_shard swap s trigger_buy min_amount_out now) s).config
        = s.config ∧
    (commit_result (execute_shard swap s trigger_buy min_amount_out now) s).keeper_acct
        = s.keeper_acct ∧
    (commit_result (execute_shard swap s trigger_buy min_amount_out now) s).escrow_amount
        = s.escrow_amount ∧
    (commit_result (execute_shard swap s trigger_buy min_amount_out now) s).fee_vault_lamports
        = s.fee_vault_lamports ∧
    (commit_result (execute_shard swap s trigger_buy min_amount_out now) s).keeper_lamports
        = s.keeper_lamports ∧
    (commit_result (execute_shard swap s trigger_buy min_amount_out now) s).owner_lamports
        = s.owner_lamports := by
  rw [h]
  exact ⟨rfl, rfl, rfl, rfl, rfl, rfl, rfl⟩

/-- C3: On the final shard — when the computed sell amount equals
order.remaining — tokens_to_sell = floor(escrowed * sell / remaining)
equals the whole escrowed balance, so a successful call commits
remaining = 0, escrowed_tokens = 0 and status = Filled together. -/
theorem execute_shard_final_shard (swap : Nat → Nat → Except ProfitMaxiError Nat)
    (s : ShardState) (trigger_buy min_amount_out : Nat) (now : Int)
    (s' : ShardState)
    (hesc : s.order.escrowed_tokens < U64_MOD)
    (hsell : calculate_sell_amount trigger_buy s.order.delta_ratio_bps
      s.order.remaining = .ok s.order.remaining)
    (hok : execute_shard swap s trigger_buy min_amount_out now = .ok s') :
    s'.order.remaining = 0 ∧ s'.order.escrowed_tokens = 0 ∧
    s'.order.status = OrderStatus.Filled := by
  unfold execute_shard at hok
  repeat' split at hok
  all_goals try exact Except.noConfusion hok
  rename_i hk hact hrem hthr hpau x1 sell hcalc hsz x2 prod hmul x3 qq hdiv
    hescle x4 quote hswap hslip x5 kf pf net hfs x6 fv1 hfv1 x7 kl1 hkl1 x8
    fv2 hfv2 x9 ol1 hol1
  rw [hsell] at hcalc
  have hsell_eq : sell = s.order.remaining := (Except.ok.inj hcalc).symm
  subst hsell_eq
  rw [checked_mul_u128_ok] at hmul
  obtain ⟨hmulb, hprod⟩ := hmul
  subst hprod
  rw [checked_div_u128_ok] at hdiv
  obtain ⟨hdnz, hqq⟩ := hdiv
  subst hqq
  have hq_eq : s.order.escrowed_tokens * s.order.remaining / s.order.remaining
      = s.order.escrowed_tokens :=
    Nat.mul_div_cancel _ (Nat.pos_of_ne_zero hrem)
  rw [hq_eq, Nat.mod_eq_of_lt hesc] at hok
  unfold execute_shard_commit at hok
  repeat' split at hok
  all_goals try exact Except.noConfusion hok
  all_goals simp_all [checked_sub_u64_ok, checked_add_u64_ok, checked_add_u32_ok,
    checked_mul_u128_ok, checked_div_u128_ok, checked_add_u128_ok]
  all_goals subst hok
  all_goals exact ⟨rfl, rfl, rfl⟩

/-- C6: Fee conservation on every successful shard: the gross proceeds q
returned by the swap satisfy keeper_fee + protocol_fee + net_quote = q,
with both fees computed independently from the same gross base by
calculate_keeper_fee and calculate_protocol_fee, the keeper credited
keeper_fee, the owner credited net_quote, and the order and config
accumulators advanced by net_quote and protocol_fee respectively. -/
theorem execute_shard_fee_conservation (swap : Nat → Nat → Except ProfitMaxiError Nat)
    (s : ShardState) (trigger_buy min_amount_out : Nat) (now : Int)
    (s' : ShardState)
    (hok : execute_shard swap s trigger_buy min_amount_out now = .ok s') :
    ∃ tokens_to_sell quote_received keeper_fee protocol_fee net_quote : Nat,
      swap tokens_to_sell min_amount_out = .ok quote_received ∧
      min_amount_out ≤ quote_received ∧
      calculate_keeper_fee quote_received s.config.keeper_fee_bps = .ok keeper_fee ∧
      calculate_protocol_fee quote_received s.config.protocol_fee_bps = .ok protocol_fee ∧
      keeper_fee + protocol_fee + net_quote = quote_received ∧
      s'.keeper_lamports = s.keeper_lamports + keeper_fee ∧
      s'.owner_lamports = s.owner_lamports + net_quote ∧
      s'.order.total_quote_received = s.order.total_quote_received + net_quote ∧
      s'.config.total_fees_collected = s.config.total_fees_collected + protocol_fee := by
  unfold execute_shard at hok
  repeat' split at hok
  all_goals try exact Except.noConfusion hok
  rename_i hk hact hrem hthr hpau x1 sell hcalc hsz x2 prod hmul x3 qq hdiv
    hescle x4 quote hswap hslip x5 kf pf net hfs x6 fv1 hfv1 x7 kl1 hkl1 x8
    fv2 hfv2 x9 ol1 hol1
  unfold fee_split at hfs
  repeat' split at hfs
  all_goals try exact Except.noConfusion hfs
  rename_i y1 kf0 hkc y2 pf0 hpc y3 n1 hsub1 y4 net0 hsub2
  injection hfs with hfs1
  injection hfs1 with hq1 hfs2
  injection hfs2 with hq2 hq3
  subst hq1
  subst hq2
  subst hq3
  rw [checked_sub_u64_ok] at hsub1 hsub2
  obtain ⟨hle1, hn1⟩ := hsub1
  obtain ⟨hle2, hnet⟩ := hsub2
  subst hn1
  subst hnet
  unfold execute_shard_commit at hok
  repeat' split at hok
  all_goals try exact Except.noConfusion hok
  all_goals simp_all [checked_sub_u64_ok, checked_add_u64_ok, checked_add_u32_ok]
  all_goals subst hok
  all_goals exact ⟨qq % U64_MOD, quote, hswap, by omega, kf0, hkc, pf0, hpc,
    quote - kf0 - pf0, by omega, rfl, rfl, rfl, rfl⟩

/-! ## Witnesses -/

/-- Witness for C1: a call against the paused protocol fails with
ProtocolPaused and every component of the observed state is unchanged. -/
theorem execute_shard_error_frame_witness :
    (commit_result (execute_shard sample_swap paused_state 100 0 0) paused_state).order
        = paused_state.order ∧
    (commit_result (execute_shard sample_swap paused_state 100 0 0) paused_state).config
        = paused_state.config ∧
    (commit_result (execute_shard sample_swap paused_state 100 0 0) paused_state).keeper_acct
        = paused_state.keeper_acct ∧
    (commit_result (execute_shard sample_swap paused_state 100 0 0) paused_state).escrow_amount
        = paused_state.escrow_amount ∧
    (commit_result (execute_shard sample_swap paused_state 100 0 0) paused_state).fee_vault_lamports
        = paused_state.fee_vault_lamports ∧
    (commit_result (execute_shard sample_swap paused_state 100 0 0) paused_state).keeper_lamports
        = paused_state.keeper_lamports ∧
    (commit_result (execute_shard sample_swap paused_state 100 0 0) paused_state).owner_lamports
        = paused_state.owner_lamports :=
  execute_shard_error_frame sample_swap paused_state 100 0 0
    ProfitMaxiError.ProtocolPaused rfl

/-- Witness for C3: the concrete full-size shard drains the sample order to
remaining 0, escrow 0 and status Filled in one call. -/
theorem execute_shard_final_shard_witness :
    sample_post.order.remaining = 0 ∧ sample_post.order.escrowed_tokens = 0 ∧
    sample_post.order.status = OrderStatus.Filled :=
  execute_shard_final_shard sample_swap sample_state 100 0 0 sample_post
    (by decide) rfl rfl

/-- Witness for C4: at trigger 100, ratio 8000 bps, remaining 1000 the
result 80 is within both bounds. -/
theorem calculate_sell_amount_le_witness :
    calculate_sell_amount 100 8000 1000 = .ok 80 ∧ 80 ≤ 1000 ∧ 80 ≤ 100 :=
  ⟨rfl, calculate_sell_amount_le 100 8000 1000 80 (by decide) (by decide)
    (by decide) rfl⟩

/-- Witness for C5: a nonzero-weight instance evaluated through the main
clause of the theorem. -/
theorem weighted_avg_price_exact_witness :
    calculate_weighted_avg_price 7 3 21 5 = .ok 15 :=
  weighted_avg_price_exact.1 7 3 21 5 (by decide) (by decide) (by decide)

/-- Witness for C6: fee conservation on the concrete sample shard. -/
theorem execute_shard_fee_conservation_witness :
    ∃ tokens_to_sell quote_received keeper_fee protocol_fee net_quote : Nat,
      sample_swap tokens_to_sell 0 = .ok quote_received ∧
      0 ≤ quote_received ∧
      calculate_keeper_fee quote_received sample_state.config.keeper_fee_bps
        = .ok keeper_fee ∧
      calculate_protocol_fee quote_received sample_state.config.protocol_fee_bps
        = .ok protocol_fee ∧
      keeper_fee + protocol_fee + net_quote = quote_received ∧
      sample_post.keeper_lamports = sample_state.keeper_lamports + keeper_fee ∧
      sample_post.owner_lamports = sample_state.owner_lamports + net_quote ∧
      sample_post.order.total_quote_received
        = sample_state.order.total_quote_received + net_quote ∧
      sample_post.config.total_fees_collected
        = sample_state.config.total_fees_collected + protocol_fee :=
  execute_shard_fee_conservation sample_swap sample_state 100 0 0 sample_post rfl

/-- Witness for C7: the split of one million at 400 and 900 bps succeeds. -/
theorem fee_split_no_underflow_witness :
    ∃ r, fee_split 1000000 400 900 = .ok r :=
  fee_split_no_underflow 1000000 400 900 (by decide) (by decide) (by decide)

/-- Witness for C8: on a concrete Filled order every operation fails. -/
theorem terminal_status_frozen_witness :
    is_ok (execute_shard sample_swap filled_state 100 0 0) = false ∧
    is_ok (cancel_order "alice" filled_state.order 50) = false ∧
    is_ok (update_order "alice" filled_state.order none none) = false ∧
    is_ok (pause_order "alice" filled_state.order) = false ∧
    is_ok (resume_order "alice" filled_state.order) = false :=
  terminal_status_frozen sample_swap filled_state 100 0 0 "alice" none none 50
    (Or.inl rfl)

/-- Witness for C9: calculate_sell_amount succeeds at the extreme u64
trigger and u16 ratio. -/
theorem calculate_sell_amount_total_witness :
    ∃ v, calculate_sell_amount 18446744073709551615 65535 5 = .ok v :=
  calculate_sell_amount_total 18446744073709551615 65535 5 (by decide) (by decide)

/-- Witness for C10: the both-None call on the owned Active sample order
succeeds and returns it unchanged. -/
theorem update_order_policy_frame_witness :
    update_order "alice" sample_order none none = .ok sample_order :=
  update_order_policy_frame.2 "alice" sample_order rfl (Or.inl rfl)

end ProfitMaxi
